import Mathlib

/-!
Verification of `fuse_pxebootfs.py` (Klowner/fuse_pxebootfs).

This file shallowly embeds the Python source: the identifier codec
(`hex2ip` / `ip2hex`), the template loader and renderer
(`load_template` / `get_pxe_data`), the node lifecycle operations
(`get_node_list`, `setup_node`, `get_next_fsid`) and the FUSE-facing
router operations (`getattr`, `read`).  Strings are modelled as `List
Char`; the process state visible to the program (the node directory
contents, the overlay directory contents, the fsid counter, and the
commands issued through `os.system`) is modelled by an explicit
`SysState` record threaded through the operations.  Failure oracles in
the state say which `os.mkdir` calls raise `OSError` and which shell
commands exit nonzero, so that error paths of the source are faithfully
representable.  Fallible code returns `Except`-style results; a Python
exception that the source does not catch is surfaced as an explicit
error constructor.
-/

namespace PXEBootFS

abbrev Str := List Char

/-- Convenience conversion from Lean string literals to the `List Char`
representation used throughout the model. -/
def str (s : String) : Str := s.toList

/-! ## Character tables and numeral parsing/printing

These model Python's `int(x)`, `int(x, 16)`, `str(n)` and `"%02X" % n`
as used by the source. -/

/-- Decimal digit test, as accepted by Python `int(x)` on the strings
this program feeds it. -/
def isDecDigitCh (c : Char) : Bool := '0' ≤ c && c ≤ '9'

/-- Hexadecimal digit test, as accepted by Python `int(x, 16)`. -/
def isHexDigitCh (c : Char) : Bool :=
  ('0' ≤ c && c ≤ '9') || ('A' ≤ c && c ≤ 'F') || ('a' ≤ c && c ≤ 'f')

/-- Value of a decimal digit character. -/
def decVal (c : Char) : Nat := c.toNat - 48

/-- Value of a hexadecimal digit character (either case). -/
def hexVal (c : Char) : Nat :=
  if c ≤ '9' then c.toNat - 48
  else if c ≤ 'F' then c.toNat - 55
  else c.toNat - 87

/-- Models Python `int(x)` on a digit string: fails on the empty string
or on any non-digit character, otherwise folds the digits. -/
def parseDec (l : Str) : Option Nat :=
  if !l.isEmpty && l.all isDecDigitCh then
    some (l.foldl (fun a c => a * 10 + decVal c) 0)
  else none

/-- Models Python `int(x, 16)` on a string: fails on the empty string or
on any non-hex character (this failure is a Python `ValueError`). -/
def parseHex (l : Str) : Option Nat :=
  if !l.isEmpty && l.all isHexDigitCh then
    some (l.foldl (fun a c => a * 16 + hexVal c) 0)
  else none

/-- Decimal digit character for a value below 10. -/
def decDigit : Nat → Char
  | 0 => '0' | 1 => '1' | 2 => '2' | 3 => '3' | 4 => '4'
  | 5 => '5' | 6 => '6' | 7 => '7' | 8 => '8' | 9 => '9'
  | _ => '?'

/-- Uppercase hexadecimal digit character for a value below 16. -/
def upHexDigit : Nat → Char
  | 0 => '0' | 1 => '1' | 2 => '2' | 3 => '3' | 4 => '4'
  | 5 => '5' | 6 => '6' | 7 => '7' | 8 => '8' | 9 => '9'
  | 10 => 'A' | 11 => 'B' | 12 => 'C' | 13 => 'D' | 14 => 'E' | 15 => 'F'
  | _ => '?'

/-- Fuel-driven most-significant-first decimal printer. -/
def natToDecFuel : Nat → Nat → Str
  | 0, _ => []
  | fuel + 1, n =>
    if n < 10 then [decDigit n]
    else natToDecFuel fuel (n / 10) ++ [decDigit (n % 10)]

/-- Models Python `str(n)` for a natural number. -/
def natToDec (n : Nat) : Str := natToDecFuel (n + 1) n

/-- Fuel-driven most-significant-first uppercase hexadecimal printer. -/
def natToHexFuel : Nat → Nat → Str
  | 0, _ => []
  | fuel + 1, n =>
    if n < 16 then [upHexDigit n]
    else natToHexFuel fuel (n / 16) ++ [upHexDigit (n % 16)]

/-- Uppercase hexadecimal rendering of a natural number. -/
def natToHex (n : Nat) : Str := natToHexFuel (n + 1) n

/-- Models Python `"%02X" % n`: uppercase hex, zero-padded to width 2. -/
def fmt02X (n : Nat) : Str :=
  let h := natToHex n
  List.replicate (2 - h.length) '0' ++ h

/-! ## Path and identifier shape helpers -/

/-- Models `os.path.basename`: the suffix after the last slash. -/
def basename (p : Str) : Str :=
  (p.reverse.takeWhile (fun c => !(c == '/'))).reverse

/-- Models `self.node_re = re.compile(r'^([A-Z0-9]{8})$')` applied via
`re.match`: exactly eight characters, each an uppercase letter or a
digit. -/
def node_re (m : Str) : Bool :=
  m.length == 8 && m.all (fun c => ('A' ≤ c && c ≤ 'Z') || ('0' ≤ c && c ≤ '9'))

/-- Models `os.path.join(d, n)` for a directory path not ending in a
slash, as configured here. -/
def pjoin (d n : Str) : Str := d ++ '/' :: n

/-- Models Python `s.split('.')`. -/
def splitDot : Str → List Str
  | [] => [[]]
  | c :: rest =>
    if c = '.' then [] :: splitDot rest
    else
      match splitDot rest with
      | [] => [[c]]
      | g :: gs => (c :: g) :: gs

/-! ## Identifier codec (source lines 37-45) -/

/-- Source `hex2ip`: converts `'C0A80101'` to `'192.168.1.1'` by hex
parsing the slices `[0:2]`, `[2:4]`, `[4:6]`, `[6:8]` and joining the
decimal renderings with dots.  `none` models the `ValueError` raised by
`int(x, 16)` on a non-hexadecimal slice. -/
def hex2ip (h : Str) : Option Str :=
  match parseHex (h.take 2), parseHex ((h.drop 2).take 2),
        parseHex ((h.drop 4).take 2), parseHex ((h.drop 6).take 2) with
  | some a, some b, some c, some d =>
    some (natToDec a ++ '.' :: (natToDec b ++ '.' :: (natToDec c ++ '.' :: natToDec d)))
  | _, _, _, _ => none

/-- Source `ip2hex`: splits on dots, decimal-parses each part and
formats each with `"%02X"`, joining with the empty string.  `none`
models the `ValueError` raised by `int(x)` on a non-decimal part. -/
def mapParseDec : List Str → Option (List Nat)
  | [] => some []
  | g :: gs =>
    match parseDec g, mapParseDec gs with
    | some n, some ns => some (n :: ns)
    | _, _ => none

def ip2hex (a : Str) : Option Str :=
  (mapParseDec (splitDot a)).map (fun ns => (ns.map fmt02X).flatten)

/-- The canonical dotted-quad rendering of four octet values, the form
produced by `hex2ip` and consumed by `ip2hex`. -/
def quadStr (a b c d : Nat) : Str :=
  natToDec a ++ '.' :: (natToDec b ++ '.' :: (natToDec c ++ '.' :: natToDec d))

/-- The sixteen characters of the class `[0-9A-F]`. -/
def upperHexChars : Str := str "0123456789ABCDEF"

/-! ## Template renderer (source lines 100-109 and 185-191)

The marker `'<NODE>'` is the six characters `<`, `N`, `O`, `D`, `E`,
`>`.  `replaceMarker` models Python `template.replace('<NODE>', node)`:
every non-overlapping occurrence, scanned left to right, is replaced. -/

def replaceMarker (node : Str) : Str → Str
  | '<' :: 'N' :: 'O' :: 'D' :: 'E' :: '>' :: rest => node ++ replaceMarker node rest
  | c :: rest => c :: replaceMarker node rest
  | [] => []

/-- Number of non-overlapping occurrences of `'<NODE>'`, scanned left to
right (the count `replace` acts on). -/
def countMarker : Str → Nat
  | '<' :: 'N' :: 'O' :: 'D' :: 'E' :: '>' :: rest => countMarker rest + 1
  | _ :: rest => countMarker rest
  | [] => 0

/-- Models `template.find('<NODE>') != -1`: the marker occurs. -/
def hasMarker : Str → Bool
  | '<' :: 'N' :: 'O' :: 'D' :: 'E' :: '>' :: _ => true
  | _ :: rest => hasMarker rest
  | [] => false

/-- Source `load_template` on the file contents `t`: raises
`PXEBootError` (modelled as `Except.error`) when `t.find('<NODE>') ==
-1`, otherwise stores the template together with
`pxe_template_length = len(t) - len('<NODE>') + 8`. -/
def load_template (t : Str) : Except Str (Str × Nat) :=
  if hasMarker t then Except.ok (t, t.length - 6 + 8)
  else Except.error (str "Could not find <NODE> in PXE config template")

/-- Source `get_pxe_data`: the template with all instances of
`'<NODE>'` replaced by the node identifier. -/
def get_pxe_data (tmpl node : Str) : Str := replaceMarker node tmpl

/-! ## Process state

`SysState` is the state the Python process reads and writes: the
configured directories, the entries of the node directory (with their
observable kind), the set of existing overlay directories, the fsid
counter `_next_fsid`, and the log of commands issued through
`os.system`.  Two oracle fields describe the environment: which
`os.mkdir` targets fail with `OSError`, and the exit statuses the shell
returns for successive `os.system` calls (the source discards these
statuses). -/

/-- Observable kind of an entry of the node directory: an active mount
point (`os.path.ismount`), a plain directory (with a flag telling
whether it is empty, which decides whether `os.rmdir` succeeds), or a
non-directory file. -/
inductive EntryKind
  | mountPoint
  | plainDir (isEmpty : Bool)
  | regularFile
deriving DecidableEq, Repr

structure SysState where
  nodeDir : Str
  overlayDir : Str
  rootDir : Str
  nodeEntries : List (Str × EntryKind)
  overlayDirs : List Str
  nodeMkdirFails : List Str
  overlayMkdirFails : List Str
  cmdExits : List Nat
  log : List Str
  nextFsid : Nat
deriving DecidableEq, Repr

/-- First entry of the node directory with the given name, if any
(`os.path.exists` / `os.path.ismount` on `join(node_dir, name)`). -/
def lookupEntry : List (Str × EntryKind) → Str → Option EntryKind
  | [], _ => none
  | (m, k) :: rest, n => if m = n then some k else lookupEntry rest n

/-- Models `os.system(cmd)`: appends the command to the log and yields
the exit status supplied by the environment oracle.  The source never
inspects the returned status. -/
def os_system (s : SysState) (cmd : Str) : Nat × SysState :=
  (s.cmdExits.headD 0, { s with log := s.log ++ [cmd], cmdExits := s.cmdExits.tail })

/-- The command string built at source lines 173-175:
`mount -t aufs -o br:<rw>=rw:<ro>=ro none <mnt>`. -/
def mountCmdStr (rw ro mnt : Str) : Str :=
  str "mount -t aufs -o br:" ++ rw ++ str "=rw:" ++ ro ++ str "=ro none " ++ mnt

/-- The command string built at source lines 177-181:
`exportfs -o rw,no_root_squash,fsid=<fsid> <ip>:<mnt>`. -/
def exportCmdStr (fsid : Nat) (ip mnt : Str) : Str :=
  str "exportfs -o rw,no_root_squash,fsid=" ++ natToDec fsid
    ++ str " " ++ ip ++ str ":" ++ mnt

/-- A representative `str(err)` for an `OSError` raised by `os.mkdir`
on the given path (the exact message text is produced by the OS). -/
def osMsg (p : Str) : Str := str "[Errno 13] Permission denied: " ++ p

/-- The `ValueError` message raised by `int(x, 16)` on a non-hex
slice inside `hex2ip`. -/
def valueErrMsg : Str := str "invalid literal for int() with base 16"

/-! ## Node lifecycle (source lines 128-145, 155-183, 231-240) -/

/-- Source `get_next_fsid`: returns `_next_fsid` and then increments it
(two separate, unsynchronized statements in the source). -/
def get_next_fsid (s : SysState) : Nat × SysState :=
  (s.nextFsid, { s with nextFsid := s.nextFsid + 1 })

/-- Loop body of `get_node_list` over the entries of the node
directory: a mount point is collected, a non-mount directory is removed
with `os.rmdir` (which raises `OSError` when the directory is not
empty), anything else is skipped.  Returns the collected names and the
surviving entries, or the uncaught `OSError` message. -/
def nodeListGo : List (Str × EntryKind) → Except Str (List Str × List (Str × EntryKind))
  | [] => Except.ok ([], [])
  | (n, EntryKind.mountPoint) :: rest =>
    (nodeListGo rest).map (fun p => (n :: p.1, (n, EntryKind.mountPoint) :: p.2))
  | (_, EntryKind.plainDir true) :: rest => nodeListGo rest
  | (n, EntryKind.plainDir false) :: _ =>
    Except.error (str "[Errno 39] Directory not empty: " ++ n)
  | (n, EntryKind.regularFile) :: rest =>
    (nodeListGo rest).map (fun p => (p.1, (n, EntryKind.regularFile) :: p.2))

/-- Source `get_node_list`: lists the node directory, returning active
mount points and deleting unused non-mount directories as a side
effect.  An `OSError` from `os.rmdir` propagates (nothing in the source
catches it here). -/
def get_node_list (s : SysState) : Except Str (List Str × SysState) :=
  (nodeListGo s.nodeEntries).map (fun p => (p.1, { s with nodeEntries := p.2 }))

/-- True on the entries `os.path.isdir` would delete in `get_node_list`
(non-mount plain directories). -/
def isPlainDir : EntryKind → Bool
  | EntryKind.plainDir _ => true
  | _ => false

/-- Step 1/2 of `setup_node`: `if not os.path.exists(node_path):
os.mkdir(node_path)`.  A fresh directory appears as an empty plain
directory; a failing `os.mkdir` raises `OSError`. -/
def ensureNodeDir (s : SysState) (node : Str) : Except Str SysState :=
  if (lookupEntry s.nodeEntries node).isSome then Except.ok s
  else if node ∈ s.nodeMkdirFails then Except.error (osMsg (pjoin s.nodeDir node))
  else Except.ok { s with nodeEntries := s.nodeEntries ++ [(node, EntryKind.plainDir true)] }

/-- Step 2/2 of the directory creation in `setup_node`, for the overlay
directory. -/
def ensureOverlayDir (s : SysState) (node : Str) : Except Str SysState :=
  if node ∈ s.overlayDirs then Except.ok s
  else if node ∈ s.overlayMkdirFails then Except.error (osMsg (pjoin s.overlayDir node))
  else Except.ok { s with overlayDirs := s.overlayDirs ++ [node] }

/-- Result of `setup_node`: normal return of the node name, or a raised
`OSError` (caught by `read`), or a raised `ValueError` from `hex2ip`
(caught nowhere).  Each constructor carries the state at the moment the
call ends, since Python exceptions do not roll back side effects. -/
inductive SetupResult
  | ok (node : Str) (s : SysState)
  | osErr (msg : Str) (s : SysState)
  | valErr (msg : Str) (s : SysState)
deriving DecidableEq, Repr

/-- Source `setup_node`: create the node mount-point directory and the
overlay directory if absent, issue the aufs mount command unless the
mount point is already a mount, then unconditionally issue the
`exportfs` command for `hex2ip(node)` with a freshly allocated fsid.
In the source the fsid is consumed before `hex2ip(node)` is evaluated
(the dict literal at lines 178-181 evaluates `'fsid'` before `'ip'`),
so the counter is bumped even when `hex2ip` raises. -/
def setup_node (s : SysState) (node : Str) : SetupResult :=
  match ensureNodeDir s node with
  | Except.error msg => SetupResult.osErr msg s
  | Except.ok s1 =>
    match ensureOverlayDir s1 node with
    | Except.error msg => SetupResult.osErr msg s1
    | Except.ok s2 =>
      let s3 :=
        if lookupEntry s2.nodeEntries node = some EntryKind.mountPoint then s2
        else (os_system s2 (mountCmdStr (pjoin s.overlayDir node) s.rootDir
                (pjoin s.nodeDir node))).2
      let p := get_next_fsid s3
      match hex2ip node with
      | none => SetupResult.valErr valueErrMsg p.2
      | some ip =>
        SetupResult.ok node (os_system p.2 (exportCmdStr p.1 ip (pjoin s.nodeDir node))).2

/-! ## Router operations (source lines 193-215 and 249-258) -/

/-- Outcome of the FUSE `read` handler: returned content (a byte
string), or an exception that the handler does not catch. -/
inductive ReadResult
  | content (data : Str) (s : SysState)
  | exn (msg : Str) (s : SysState)
deriving DecidableEq, Repr

/-- Source `read`: if the base name matches `node_re`, run
`setup_node` (catching only `OSError`, whose `str(err)` is returned as
if it were file content) and return the slice
`get_pxe_data(node)[offset:offset+length]`; otherwise return `''`. -/
def read (tmpl : Str) (s : SysState) (path : Str) (length offset : Nat) : ReadResult :=
  let node := basename path
  if node_re node then
    match setup_node s node with
    | SetupResult.osErr msg s' => ReadResult.content msg s'
    | SetupResult.valErr msg s' => ReadResult.exn msg s'
    | SetupResult.ok _ s' =>
      ReadResult.content (((get_pxe_data tmpl node).drop offset).take length) s'
  else ReadResult.content [] s

/-- Content of a `read` outcome when it returned normally. -/
def rdata : ReadResult → Option Str
  | ReadResult.content d _ => some d
  | ReadResult.exn _ _ => none

/-- Attribute record produced by `getattr`, keeping the fields the
source sets: the mode class, `st_size` and `st_nlink`.  `enoent` models
the `-errno.ENOENT` return. -/
inductive Attr
  | dirA (size nlink : Nat)
  | lnkA (size nlink : Nat)
  | fileA (size nlink : Nat)
  | enoent
deriving DecidableEq, Repr

/-- Source `getattr`, with `tl` the stored `pxe_template_length`:
`'/'` and `'/by-ip'` are directories; a path starting with `'/by-ip/'`
(and longer than `'/by-ip'`) is a symlink; a path whose base name
matches `node_re` is a regular file of size `tl`; anything else is
`-ENOENT`. -/
def getattr (tl : Nat) (path : Str) : Attr :=
  if path = str "/" ∨ path = str "/by-ip" then Attr.dirA 4096 2
  else if (str "/by-ip/").isPrefixOf path ∧ 6 < path.length then Attr.lnkA 4096 2
  else if node_re (basename path) then Attr.fileA tl 1
  else Attr.enoent

/-! ## Interleaved executions of `get_next_fsid`

`get_next_fsid` is two statements: `fsid = self._next_fsid` (a read)
and `self._next_fsid += 1` (an increment).  The machine below runs two
concurrent calls, each advancing through those two steps; a schedule
says which caller takes the next step.  This models the source's
unsynchronized counter under the host's concurrent FUSE dispatch. -/

/-- Progress of one in-flight `get_next_fsid` call: not started, read
done (holding the value to return), or finished with return value. -/
inductive APc
  | start
  | mid (v : Nat)
  | done (v : Nat)
deriving DecidableEq, Repr

/-- One step of one call against the shared counter: `start` performs
`fsid = self._next_fsid`; `mid` performs `self._next_fsid += 1` and
returns. -/
def allocStep : Nat → APc → Nat × APc
  | c, APc.start => (c, APc.mid c)
  | c, APc.mid v => (c + 1, APc.done v)
  | c, APc.done v => (c, APc.done v)

/-- Shared counter plus two concurrent `get_next_fsid` calls. -/
structure Alloc2 where
  counter : Nat
  ta : APc
  tb : APc
deriving DecidableEq, Repr

/-- Let the scheduled caller (`true` = first) take one step. -/
def schedStep (s : Alloc2) (who : Bool) : Alloc2 :=
  if who then
    let p := allocStep s.counter s.ta
    { s with counter := p.1, ta := p.2 }
  else
    let p := allocStep s.counter s.tb
    { s with counter := p.1, tb := p.2 }

/-- Run a schedule of interleaved steps. -/
def schedRun (l : List Bool) (s : Alloc2) : Alloc2 := l.foldl schedStep s

/-- Results of `n` successive sequential calls to `get_next_fsid`. -/
def fsidCalls : SysState → Nat → List Nat
  | _, 0 => []
  | s, n + 1 =>
    let p := get_next_fsid s
    p.1 :: fsidCalls p.2 n

/-! ## Supporting lemmas and claim theorems -/

set_option maxRecDepth 8000



theorem parseDec_natToDec : ∀ n < 256, parseDec (natToDec n) = some n := by decide

theorem dot_not_mem_natToDec : ∀ n < 256, '.' ∉ natToDec n := by decide

theorem parseHex_fmt02X : ∀ n < 256, parseHex (fmt02X n) = some n := by decide

theorem fmt02X_length : ∀ n < 256, (fmt02X n).length = 2 := by decide

theorem fmt02X_pair : ∀ v1 < 16, ∀ v2 < 16,
    fmt02X (v1 * 16 + v2) = [upHexDigit v1, upHexDigit v2] := by decide

theorem upperHex_spec (c : Char) (h : c ∈ upperHexChars) :
    isHexDigitCh c = true ∧ hexVal c < 16 ∧ upHexDigit (hexVal c) = c := by
  have hall : upperHexChars.all
      (fun c => isHexDigitCh c && (decide (hexVal c < 16)) && (upHexDigit (hexVal c) == c))
      = true := by decide
  have hc := List.all_eq_true.mp hall c h
  simp only [Bool.and_eq_true, beq_iff_eq, decide_eq_true_eq] at hc
  exact ⟨hc.1.1, hc.1.2, hc.2⟩

theorem splitDot_eq_of_no_dot (x : Str) (h : '.' ∉ x) : splitDot x = [x] := by
  induction x with
  | nil => rfl
  | cons c rest ih =>
    have hc : ¬ c = '.' := by rintro rfl; exact h (List.mem_cons_self _ _)
    have hr : '.' ∉ rest := fun hm => h (List.mem_cons_of_mem _ hm)
    simp [splitDot, hc, ih hr]

theorem splitDot_append_dot (x y : Str) (h : '.' ∉ x) :
    splitDot (x ++ '.' :: y) = x :: splitDot y := by
  induction x with
  | nil => simp [splitDot]
  | cons c rest ih =>
    have hc : ¬ c = '.' := by rintro rfl; exact h (List.mem_cons_self _ _)
    have hr : '.' ∉ rest := fun hm => h (List.mem_cons_of_mem _ hm)
    simp [splitDot, hc, ih hr]

theorem slices_of_pairs (la lb lc ld : Str)
    (ha : la.length = 2) (hb : lb.length = 2) (hc : lc.length = 2) (hd : ld.length = 2) :
    ((la ++ (lb ++ (lc ++ ld))).take 2 = la)
  ∧ (((la ++ (lb ++ (lc ++ ld))).drop 2).take 2 = lb)
  ∧ (((la ++ (lb ++ (lc ++ ld))).drop 4).take 2 = lc)
  ∧ (((la ++ (lb ++ (lc ++ ld))).drop 6).take 2 = ld) := by
  have d2 : (la ++ (lb ++ (lc ++ ld))).drop 2 = lb ++ (lc ++ ld) := List.drop_left' ha
  have h4 : (4 : Nat) = 2 + 2 := rfl
  have d4 : (la ++ (lb ++ (lc ++ ld))).drop 4 = lc ++ ld := by
    rw [h4, ← List.drop_drop, d2, List.drop_left' hb]
  have d6 : (la ++ (lb ++ (lc ++ ld))).drop 6 = ld := by
    have h6 : (6 : Nat) = 2 + 4 := rfl
    rw [h6, ← List.drop_drop, d2, h4, ← List.drop_drop, List.drop_left' hb,
      List.drop_left' hc]
  refine ⟨List.take_left' ha, ?_, ?_, ?_⟩
  · rw [d2, List.take_left' hb]
  · rw [d4, List.take_left' hc]
  · rw [d6, ← hd, List.take_length]

theorem quad_parses (a b c d : Nat) (ha : a < 256) (hb : b < 256) (hc : c < 256)
    (hd : d < 256) :
    mapParseDec (splitDot (quadStr a b c d)) = some [a, b, c, d] := by
  have hsplit : splitDot (quadStr a b c d)
      = [natToDec a, natToDec b, natToDec c, natToDec d] := by
    unfold quadStr
    rw [splitDot_append_dot _ _ (dot_not_mem_natToDec a ha),
        splitDot_append_dot _ _ (dot_not_mem_natToDec b hb),
        splitDot_append_dot _ _ (dot_not_mem_natToDec c hc),
        splitDot_eq_of_no_dot _ (dot_not_mem_natToDec d hd)]
  rw [hsplit]
  simp [mapParseDec, parseDec_natToDec a ha, parseDec_natToDec b hb,
    parseDec_natToDec c hc, parseDec_natToDec d hd]

theorem hex2ip_fmt_quad (a b c d : Nat) (ha : a < 256) (hb : b < 256) (hc : c < 256)
    (hd : d < 256) :
    hex2ip (fmt02X a ++ (fmt02X b ++ (fmt02X c ++ fmt02X d))) = some (quadStr a b c d) := by
  obtain ⟨e1, e2, e3, e4⟩ := slices_of_pairs (fmt02X a) (fmt02X b) (fmt02X c) (fmt02X d)
    (fmt02X_length a ha) (fmt02X_length b hb) (fmt02X_length c hc) (fmt02X_length d hd)
  unfold hex2ip
  rw [e1, e2, e3, e4, parseHex_fmt02X a ha, parseHex_fmt02X b hb, parseHex_fmt02X c hc,
    parseHex_fmt02X d hd]
  rfl

theorem decode_encode (a b c d : Nat) (ha : a ≤ 255) (hb : b ≤ 255) (hc : c ≤ 255)
    (hd : d ≤ 255) :
    (ip2hex (quadStr a b c d)).bind hex2ip = some (quadStr a b c d) := by
  have ha' : a < 256 := by omega
  have hb' : b < 256 := by omega
  have hc' : c < 256 := by omega
  have hd' : d < 256 := by omega
  have hip : ip2hex (quadStr a b c d)
      = some (fmt02X a ++ (fmt02X b ++ (fmt02X c ++ fmt02X d))) := by
    unfold ip2hex
    rw [quad_parses a b c d ha' hb' hc' hd']
    simp [List.flatten]
  rw [hip, Option.some_bind, hex2ip_fmt_quad a b c d ha' hb' hc' hd']



theorem encode_decode (s : Str) (hlen : s.length = 8)
    (hmem : ∀ c ∈ s, c ∈ upperHexChars) :
    (hex2ip s).bind ip2hex = some s := by
  rcases s with _ | ⟨c1, _ | ⟨c2, _ | ⟨c3, _ | ⟨c4, _ | ⟨c5, _ | ⟨c6, _ | ⟨c7, _ | ⟨c8, t⟩⟩⟩⟩⟩⟩⟩⟩ <;>
    simp only [List.length_cons, List.length_nil] at hlen <;> try omega
  have ht : t = [] := by
    have h0 : t.length = 0 := by omega
    exact List.length_eq_zero.mp h0
  subst ht
  obtain ⟨hx1, hv1, hu1⟩ := upperHex_spec c1 (hmem c1 (by simp))
  obtain ⟨hx2, hv2, hu2⟩ := upperHex_spec c2 (hmem c2 (by simp))
  obtain ⟨hx3, hv3, hu3⟩ := upperHex_spec c3 (hmem c3 (by simp))
  obtain ⟨hx4, hv4, hu4⟩ := upperHex_spec c4 (hmem c4 (by simp))
  obtain ⟨hx5, hv5, hu5⟩ := upperHex_spec c5 (hmem c5 (by simp))
  obtain ⟨hx6, hv6, hu6⟩ := upperHex_spec c6 (hmem c6 (by simp))
  obtain ⟨hx7, hv7, hu7⟩ := upperHex_spec c7 (hmem c7 (by simp))
  obtain ⟨hx8, hv8, hu8⟩ := upperHex_spec c8 (hmem c8 (by simp))
  have hp12 : parseHex [c1, c2] = some (hexVal c1 * 16 + hexVal c2) := by
    simp [parseHex, hx1, hx2]
  have hp34 : parseHex [c3, c4] = some (hexVal c3 * 16 + hexVal c4) := by
    simp [parseHex, hx3, hx4]
  have hp56 : parseHex [c5, c6] = some (hexVal c5 * 16 + hexVal c6) := by
    simp [parseHex, hx5, hx6]
  have hp78 : parseHex [c7, c8] = some (hexVal c7 * 16 + hexVal c8) := by
    simp [parseHex, hx7, hx8]
  have hhex : hex2ip [c1, c2, c3, c4, c5, c6, c7, c8]
      = some (quadStr (hexVal c1 * 16 + hexVal c2) (hexVal c3 * 16 + hexVal c4)
          (hexVal c5 * 16 + hexVal c6) (hexVal c7 * 16 + hexVal c8)) := by
    have e1 : ([c1, c2, c3, c4, c5, c6, c7, c8] : Str).take 2 = [c1, c2] := rfl
    have e2 : (([c1, c2, c3, c4, c5, c6, c7, c8] : Str).drop 2).take 2 = [c3, c4] := rfl
    have e3 : (([c1, c2, c3, c4, c5, c6, c7, c8] : Str).drop 4).take 2 = [c5, c6] := rfl
    have e4 : (([c1, c2, c3, c4, c5, c6, c7, c8] : Str).drop 6).take 2 = [c7, c8] := rfl
    unfold hex2ip
    rw [e1, e2, e3, e4, hp12, hp34, hp56, hp78]
    rfl
  rw [hhex, Option.some_bind]
  have h1 : hexVal c1 * 16 + hexVal c2 < 256 := by omega
  have h2 : hexVal c3 * 16 + hexVal c4 < 256 := by omega
  have h3 : hexVal c5 * 16 + hexVal c6 < 256 := by omega
  have h4 : hexVal c7 * 16 + hexVal c8 < 256 := by omega
  unfold ip2hex
  rw [quad_parses _ _ _ _ h1 h2 h3 h4]
  rw [Option.map_some']
  rw [List.map_cons, List.map_cons, List.map_cons, List.map_cons, List.map_nil]
  rw [fmt02X_pair _ hv1 _ hv2, fmt02X_pair _ hv3 _ hv4, fmt02X_pair _ hv5 _ hv6,
    fmt02X_pair _ hv7 _ hv8, hu1, hu2, hu3, hu4, hu5, hu6, hu7, hu8]
  rfl



theorem replaceMarker_length (node : Str) (hn : node.length = 8) : ∀ t : Str,
    (replaceMarker node t).length = t.length + 2 * countMarker t := by
  refine replaceMarker.induct node
    (fun t => (replaceMarker node t).length = t.length + 2 * countMarker t) ?_ ?_ ?_
  · intro rest ih
    simp [replaceMarker, countMarker, hn, ih]; omega
  · intro c rest hne ih
    simp [replaceMarker, countMarker, hne, ih]; omega
  · rfl

theorem countMarker_le_length (t : Str) : 6 * countMarker t ≤ t.length := by
  induction t using countMarker.induct with
  | case1 rest ih => simp [countMarker]; omega
  | case2 c rest hne ih => simp [countMarker, hne]; omega
  | case3 => simp [countMarker]

theorem hasMarker_iff (t : Str) : hasMarker t = true ↔ 0 < countMarker t := by
  induction t using countMarker.induct with
  | case1 rest ih => simp [hasMarker, countMarker]
  | case2 c rest hne ih => simp [hasMarker, countMarker, hne, ih]
  | case3 => simp [hasMarker, countMarker]



theorem lookupEntry_append_of_none (l : List (Str × EntryKind)) (n : Str) (k : EntryKind)
    (h : lookupEntry l n = none) : lookupEntry (l ++ [(n, k)]) n = some k := by
  induction l with
  | nil => simp [lookupEntry]
  | cons e rest ih =>
    rcases e with ⟨m, k'⟩
    by_cases he : m = n
    · simp [lookupEntry, he] at h
    · simp only [List.cons_append, lookupEntry, if_neg he] at h ⊢
      exact ih h

theorem setup_node_ok (s : SysState) (node ip : Str)
    (hip : hex2ip node = some ip)
    (h1 : node ∉ s.nodeMkdirFails) (h2 : node ∉ s.overlayMkdirFails) :
    ∃ s', setup_node s node = SetupResult.ok node s'
      ∧ s'.nodeEntries = (if (lookupEntry s.nodeEntries node).isSome then s.nodeEntries
            else s.nodeEntries ++ [(node, EntryKind.plainDir true)])
      ∧ s'.overlayDirs = (if node ∈ s.overlayDirs then s.overlayDirs
            else s.overlayDirs ++ [node])
      ∧ s'.log = s.log
          ++ (if lookupEntry s.nodeEntries node = some EntryKind.mountPoint then []
              else [mountCmdStr (pjoin s.overlayDir node) s.rootDir (pjoin s.nodeDir node)])
          ++ [exportCmdStr s.nextFsid ip (pjoin s.nodeDir node)]
      ∧ s'.nextFsid = s.nextFsid + 1 := by
  by_cases hA : (lookupEntry s.nodeEntries node).isSome
  · by_cases hM : lookupEntry s.nodeEntries node = some EntryKind.mountPoint
    · by_cases hB : node ∈ s.overlayDirs
      · refine ⟨{ s with
            cmdExits := s.cmdExits.tail,
            log := s.log ++ [exportCmdStr s.nextFsid ip (pjoin s.nodeDir node)],
            nextFsid := s.nextFsid + 1 }, ?_, ?_, ?_, ?_, ?_⟩ <;>
          simp [setup_node, ensureNodeDir, ensureOverlayDir, os_system, get_next_fsid,
            hA, hM, hB, hip]
      · refine ⟨{ s with
            overlayDirs := s.overlayDirs ++ [node],
            cmdExits := s.cmdExits.tail,
            log := s.log ++ [exportCmdStr s.nextFsid ip (pjoin s.nodeDir node)],
            nextFsid := s.nextFsid + 1 }, ?_, ?_, ?_, ?_, ?_⟩ <;>
          simp [setup_node, ensureNodeDir, ensureOverlayDir, os_system, get_next_fsid,
            hA, hM, hB, h2, hip]
    · by_cases hB : node ∈ s.overlayDirs
      · refine ⟨{ s with
            cmdExits := s.cmdExits.tail.tail,
            log := (s.log ++ [mountCmdStr (pjoin s.overlayDir node) s.rootDir
              (pjoin s.nodeDir node)]) ++ [exportCmdStr s.nextFsid ip (pjoin s.nodeDir node)],
            nextFsid := s.nextFsid + 1 }, ?_, ?_, ?_, ?_, ?_⟩ <;>
          simp [setup_node, ensureNodeDir, ensureOverlayDir, os_system, get_next_fsid,
            hA, hM, hB, hip]
      · refine ⟨{ s with
            overlayDirs := s.overlayDirs ++ [node],
            cmdExits := s.cmdExits.tail.tail,
            log := (s.log ++ [mountCmdStr (pjoin s.overlayDir node) s.rootDir
              (pjoin s.nodeDir node)]) ++ [exportCmdStr s.nextFsid ip (pjoin s.nodeDir node)],
            nextFsid := s.nextFsid + 1 }, ?_, ?_, ?_, ?_, ?_⟩ <;>
          simp [setup_node, ensureNodeDir, ensureOverlayDir, os_system, get_next_fsid,
            hA, hM, hB, h2, hip]
  · have hnone : lookupEntry s.nodeEntries node = none :=
      Option.not_isSome_iff_eq_none.mp hA
    have happ := lookupEntry_append_of_none s.nodeEntries node (EntryKind.plainDir true) hnone
    by_cases hB : node ∈ s.overlayDirs
    · refine ⟨{ s with
          nodeEntries := s.nodeEntries ++ [(node, EntryKind.plainDir true)],
          cmdExits := s.cmdExits.tail.tail,
          log := (s.log ++ [mountCmdStr (pjoin s.overlayDir node) s.rootDir
            (pjoin s.nodeDir node)]) ++ [exportCmdStr s.nextFsid ip (pjoin s.nodeDir node)],
          nextFsid := s.nextFsid + 1 }, ?_, ?_, ?_, ?_, ?_⟩ <;>
        simp [setup_node, ensureNodeDir, ensureOverlayDir, os_system, get_next_fsid,
          hnone, happ, hB, h1, hip]
    · refine ⟨{ s with
          nodeEntries := s.nodeEntries ++ [(node, EntryKind.plainDir true)],
          overlayDirs := s.overlayDirs ++ [node],
          cmdExits := s.cmdExits.tail.tail,
          log := (s.log ++ [mountCmdStr (pjoin s.overlayDir node) s.rootDir
            (pjoin s.nodeDir node)]) ++ [exportCmdStr s.nextFsid ip (pjoin s.nodeDir node)],
          nextFsid := s.nextFsid + 1 }, ?_, ?_, ?_, ?_, ?_⟩ <;>
        simp [setup_node, ensureNodeDir, ensureOverlayDir, os_system, get_next_fsid,
          hnone, happ, hB, h1, h2, hip]




theorem hex2ip_isSome (m : Str) (hlen : m.length = 8) (hhex : m.all isHexDigitCh = true) :
    ∃ ip, hex2ip m = some ip := by
  rcases m with _ | ⟨c1, _ | ⟨c2, _ | ⟨c3, _ | ⟨c4, _ | ⟨c5, _ | ⟨c6, _ | ⟨c7, _ | ⟨c8, t⟩⟩⟩⟩⟩⟩⟩⟩ <;>
    simp only [List.length_cons, List.length_nil] at hlen <;> try omega
  have ht : t = [] := by
    have h0 : t.length = 0 := by omega
    exact List.length_eq_zero.mp h0
  subst ht
  simp only [List.all_cons, List.all_nil, Bool.and_eq_true, Bool.and_true] at hhex
  obtain ⟨hx1, hx2, hx3, hx4, hx5, hx6, hx7, hx8⟩ := hhex
  have hp12 : parseHex [c1, c2] = some (hexVal c1 * 16 + hexVal c2) := by
    simp [parseHex, hx1, hx2]
  have hp34 : parseHex [c3, c4] = some (hexVal c3 * 16 + hexVal c4) := by
    simp [parseHex, hx3, hx4]
  have hp56 : parseHex [c5, c6] = some (hexVal c5 * 16 + hexVal c6) := by
    simp [parseHex, hx5, hx6]
  have hp78 : parseHex [c7, c8] = some (hexVal c7 * 16 + hexVal c8) := by
    simp [parseHex, hx7, hx8]
  have e1 : ([c1, c2, c3, c4, c5, c6, c7, c8] : Str).take 2 = [c1, c2] := rfl
  have e2 : (([c1, c2, c3, c4, c5, c6, c7, c8] : Str).drop 2).take 2 = [c3, c4] := rfl
  have e3 : (([c1, c2, c3, c4, c5, c6, c7, c8] : Str).drop 4).take 2 = [c5, c6] := rfl
  have e4 : (([c1, c2, c3, c4, c5, c6, c7, c8] : Str).drop 6).take 2 = [c7, c8] := rfl
  refine ⟨quadStr (hexVal c1 * 16 + hexVal c2) (hexVal c3 * 16 + hexVal c4)
    (hexVal c5 * 16 + hexVal c6) (hexVal c7 * 16 + hexVal c8), ?_⟩
  unfold hex2ip
  rw [e1, e2, e3, e4, hp12, hp34, hp56, hp78]
  rfl

theorem node_re_length (m : Str) (h : node_re m = true) : m.length = 8 := by
  simp only [node_re, Bool.and_eq_true, beq_iff_eq] at h
  exact h.1

theorem read_ok (tmpl : Str) (s : SysState) (path : Str) (len off : Nat)
    (hshape : node_re (basename path) = true)
    (hhex : (basename path).all isHexDigitCh = true)
    (h1 : basename path ∉ s.nodeMkdirFails) (h2 : basename path ∉ s.overlayMkdirFails) :
    ∃ s', read tmpl s path len off
      = ReadResult.content (((get_pxe_data tmpl (basename path)).drop off).take len) s' := by
  obtain ⟨ip, hip⟩ := hex2ip_isSome _ (node_re_length _ hshape) hhex
  obtain ⟨s', hs, -, -, -, -⟩ := setup_node_ok s (basename path) ip hip h1 h2
  refine ⟨s', ?_⟩
  simp [read, hshape, hs]

theorem read_nonmatch (tmpl : Str) (s : SysState) (path : Str) (len off : Nat)
    (h : node_re (basename path) = false) :
    read tmpl s path len off = ReadResult.content [] s := by
  simp [read, h]

theorem setup_node_no_valErr (s : SysState) (node ip : Str) (hip : hex2ip node = some ip) :
    ∀ m s', setup_node s node ≠ SetupResult.valErr m s' := by
  intro m s' h
  unfold setup_node at h
  rcases hEN : ensureNodeDir s node with msg | s1
  · simp only [hEN] at h
    exact SetupResult.noConfusion h
  · simp only [hEN] at h
    rcases hEO : ensureOverlayDir s1 node with msg2 | s2
    · simp only [hEO] at h
      exact SetupResult.noConfusion h
    · simp only [hEO, hip] at h
      exact SetupResult.noConfusion h

theorem setup_node_valErr (s : SysState) (node : Str) (hip : hex2ip node = none)
    (h1 : node ∉ s.nodeMkdirFails) (h2 : node ∉ s.overlayMkdirFails) :
    ∃ s', setup_node s node = SetupResult.valErr valueErrMsg s' := by
  unfold setup_node
  by_cases hA : (lookupEntry s.nodeEntries node).isSome
  · by_cases hB : node ∈ s.overlayDirs
    · simp only [ensureNodeDir, ensureOverlayDir, if_pos hA, if_pos hB, hip]
      exact ⟨_, rfl⟩
    · simp only [ensureNodeDir, ensureOverlayDir, if_pos hA, if_neg hB, if_neg h2, hip]
      exact ⟨_, rfl⟩
  · by_cases hB : node ∈ s.overlayDirs
    · simp only [ensureNodeDir, ensureOverlayDir, if_neg hA, if_neg h1, if_pos hB, hip]
      exact ⟨_, rfl⟩
    · simp only [ensureNodeDir, ensureOverlayDir, if_neg hA, if_neg h1, if_neg hB,
        if_neg h2, hip]
      exact ⟨_, rfl⟩

theorem read_GGGG (tmpl : Str) (s : SysState) (len off : Nat)
    (h1 : str "GGGGGGGG" ∉ s.nodeMkdirFails) (h2 : str "GGGGGGGG" ∉ s.overlayMkdirFails) :
    ∃ s', read tmpl s (str "/GGGGGGGG") len off = ReadResult.exn valueErrMsg s' := by
  have hb : basename (str "/GGGGGGGG") = str "GGGGGGGG" := by decide
  have hshape : node_re (str "GGGGGGGG") = true := by decide
  have hip : hex2ip (str "GGGGGGGG") = none := by decide
  obtain ⟨s', hs⟩ := setup_node_valErr s (str "GGGGGGGG") hip h1 h2
  refine ⟨s', ?_⟩
  simp [read, hb, hshape, hs]



theorem read_no_exn (tmpl : Str) (s : SysState) (path : Str) (len off : Nat)
    (hhex : (basename path).all isHexDigitCh = true) :
    ∀ m s', read tmpl s path len off ≠ ReadResult.exn m s' := by
  intro m s' h
  by_cases hshape : node_re (basename path)
  · obtain ⟨ip, hip⟩ := hex2ip_isSome _ (node_re_length _ hshape) hhex
    simp only [read, hshape, if_true] at h
    rcases hsn : setup_node s (basename path) with ⟨n, st⟩ | ⟨mg, st⟩ | ⟨mg, st⟩ <;>
      simp only [hsn] at h
    · exact ReadResult.noConfusion h
    · exact ReadResult.noConfusion h
    · exact setup_node_no_valErr s _ ip hip mg st hsn
  · simp only [Bool.not_eq_true] at hshape
    simp only [read, hshape, Bool.false_eq_true, if_false] at h
    exact ReadResult.noConfusion h

theorem read_mkdirFail (tmpl : Str) (s : SysState) (path : Str) (len off : Nat)
    (hshape : node_re (basename path) = true)
    (habsent : lookupEntry s.nodeEntries (basename path) = none)
    (hfail : basename path ∈ s.nodeMkdirFails) :
    read tmpl s path len off
      = ReadResult.content (osMsg (pjoin s.nodeDir (basename path))) s := by
  have hEN : ensureNodeDir s (basename path)
      = Except.error (osMsg (pjoin s.nodeDir (basename path))) := by
    simp [ensureNodeDir, habsent, hfail]
  simp [read, hshape, setup_node, hEN]

theorem ensureNodeDir_exits (s : SysState) (e : List Nat) (node : Str) :
    ensureNodeDir { s with cmdExits := e } node
      = (ensureNodeDir s node).map (fun t => { t with cmdExits := e }) := by
  by_cases hA : (lookupEntry s.nodeEntries node).isSome
  · simp [ensureNodeDir, hA, Except.map]
  · by_cases hF : node ∈ s.nodeMkdirFails
    · simp [ensureNodeDir, hA, hF, Except.map]
    · simp [ensureNodeDir, hA, hF, Except.map]

theorem ensureOverlayDir_exits (s : SysState) (e : List Nat) (node : Str) :
    ensureOverlayDir { s with cmdExits := e } node
      = (ensureOverlayDir s node).map (fun t => { t with cmdExits := e }) := by
  by_cases hA : node ∈ s.overlayDirs
  · simp [ensureOverlayDir, hA, Except.map]
  · by_cases hF : node ∈ s.overlayMkdirFails
    · simp [ensureOverlayDir, hA, hF, Except.map]
    · simp [ensureOverlayDir, hA, hF, Except.map]

theorem read_ignores_cmdExits (tmpl : Str) (s : SysState) (path : Str) (len off : Nat)
    (e : List Nat) :
    rdata (read tmpl { s with cmdExits := e } path len off)
      = rdata (read tmpl s path len off) := by
  by_cases hshape : node_re (basename path)
  · rcases hEN : ensureNodeDir s (basename path) with msg | s1
    · have hEN' : ensureNodeDir { s with cmdExits := e } (basename path)
          = Except.error msg := by
        rw [ensureNodeDir_exits, hEN]; rfl
      simp [read, hshape, setup_node, hEN, hEN', rdata]
    · have hEN' : ensureNodeDir { s with cmdExits := e } (basename path)
          = Except.ok { s1 with cmdExits := e } := by
        rw [ensureNodeDir_exits, hEN]; rfl
      rcases hEO : ensureOverlayDir s1 (basename path) with msg2 | s2
      · have hEO' : ensureOverlayDir { s1 with cmdExits := e } (basename path)
            = Except.error msg2 := by
          rw [ensureOverlayDir_exits, hEO]; rfl
        simp [read, hshape, setup_node, hEN, hEN', hEO, hEO', rdata]
      · have hEO' : ensureOverlayDir { s1 with cmdExits := e } (basename path)
            = Except.ok { s2 with cmdExits := e } := by
          rw [ensureOverlayDir_exits, hEO]; rfl
        rcases hip : hex2ip (basename path) with _ | ip
        · simp [read, hshape, setup_node, hEN, hEN', hEO, hEO', hip, rdata, os_system,
            get_next_fsid]
        · simp [read, hshape, setup_node, hEN, hEN', hEO, hEO', hip, rdata, os_system,
            get_next_fsid]
  · simp [read, hshape, rdata]



theorem nodeListGo_ok (l : List (Str × EntryKind))
    (hemp : ∀ e ∈ l, e.2 ≠ EntryKind.plainDir false) :
    nodeListGo l = Except.ok
      ((l.filter (fun e => e.2 == EntryKind.mountPoint)).map Prod.fst,
       l.filter (fun e => !(isPlainDir e.2))) := by
  induction l with
  | nil => rfl
  | cons e rest ih =>
    rcases e with ⟨n, k⟩
    have hrest : ∀ e ∈ rest, e.2 ≠ EntryKind.plainDir false :=
      fun e h => hemp e (List.mem_cons_of_mem _ h)
    rcases k with _ | emp | _
    · simp [nodeListGo, ih hrest, List.filter_cons, isPlainDir, Except.map]
    · cases emp
      · exact absurd rfl (hemp (n, EntryKind.plainDir false) (List.mem_cons_self _ _))
      · simp [nodeListGo, ih hrest, List.filter_cons, isPlainDir, Except.map]
    · simp [nodeListGo, ih hrest, List.filter_cons, isPlainDir, Except.map]

theorem get_node_list_ok (s : SysState)
    (hemp : ∀ e ∈ s.nodeEntries, e.2 ≠ EntryKind.plainDir false) :
    get_node_list s = Except.ok
      (((s.nodeEntries.filter (fun e => e.2 == EntryKind.mountPoint)).map Prod.fst),
       { s with nodeEntries := s.nodeEntries.filter (fun e => !(isPlainDir e.2)) }) := by
  simp [get_node_list, nodeListGo_ok s.nodeEntries hemp, Except.map]

theorem fsidCalls_spec (n : Nat) : ∀ s : SysState,
    fsidCalls s n = (List.range n).map (fun i => s.nextFsid + i) := by
  induction n with
  | zero => intro s; rfl
  | succ n ih =>
    intro s
    rw [List.range_succ_eq_map]
    simp only [fsidCalls, get_next_fsid, ih, List.map_cons, List.map_map, Nat.add_zero]
    refine congrArg (fun l => s.nextFsid :: l) ?_
    apply List.map_congr_left
    intro a _
    simp
    omega

theorem fsidCalls_pairwise (s : SysState) (n : Nat) :
    List.Pairwise (· < ·) (fsidCalls s n) := by
  rw [fsidCalls_spec]
  refine List.Pairwise.map _ ?_ (List.pairwise_lt_range n)
  intro a b hab
  omega



/-- C1 counterexample: the path `/GGGGGGGG` has a base name matching the
8-character identifier shape, yet `read` raises an uncaught `ValueError`
instead of returning the byte window of the rendered template (so it
returns no byte string at all). -/
theorem read_window_ce :
    node_re (basename (str "/GGGGGGGG")) = true
  ∧ rdata (read (str "default <NODE> kernel")
      ⟨str "/nodes", str "/overlay", str "/root", [], [], [], [], [], [], 100000⟩
      (str "/GGGGGGGG") 100 0) = none := by decide

/-- C1 (amended): for a path whose base name does not match the shape,
`read` returns the empty result; for a path whose base name matches the
shape and consists of hexadecimal digits, when no `OSError` strikes the
directory creation, `read` returns exactly the byte window
`[offset, offset+length)` of the rendered template; a window starting at
or past the rendered length is empty. -/
theorem read_returns_window (tmpl : Str) (s : SysState) (path : Str) (len off : Nat) :
    (node_re (basename path) = false →
      read tmpl s path len off = ReadResult.content [] s)
  ∧ (node_re (basename path) = true →
     (basename path).all isHexDigitCh = true →
     basename path ∉ s.nodeMkdirFails →
     basename path ∉ s.overlayMkdirFails →
     ∃ s', read tmpl s path len off
        = ReadResult.content (((get_pxe_data tmpl (basename path)).drop off).take len) s')
  ∧ ((get_pxe_data tmpl (basename path)).length ≤ off →
      ((get_pxe_data tmpl (basename path)).drop off).take len = []) := by
  refine ⟨fun h => read_nonmatch tmpl s path len off h,
    fun hs hh h1 h2 => read_ok tmpl s path len off hs hh h1 h2,
    fun hoff => ?_⟩
  rw [List.drop_eq_nil_of_le hoff, List.take_nil]

/-- C1 witness at a concrete state, template and identifier. -/
theorem read_returns_window_witness :
    read (str "default <NODE> kernel")
        ⟨str "/nodes", str "/overlay", str "/root", [], [], [], [], [], [], 100000⟩
        (str "/by-ip") 100 0
      = ReadResult.content []
        ⟨str "/nodes", str "/overlay", str "/root", [], [], [], [], [], [], 100000⟩
  ∧ ∃ s', read (str "default <NODE> kernel")
        ⟨str "/nodes", str "/overlay", str "/root", [], [], [], [], [], [], 100000⟩
        (str "/0A0B0C0D") 100 0
      = ReadResult.content (((get_pxe_data (str "default <NODE> kernel")
          (basename (str "/0A0B0C0D"))).drop 0).take 100) s' :=
  ⟨(read_returns_window (str "default <NODE> kernel")
      ⟨str "/nodes", str "/overlay", str "/root", [], [], [], [], [], [], 100000⟩
      (str "/by-ip") 100 0).1 (by decide),
   (read_returns_window (str "default <NODE> kernel")
      ⟨str "/nodes", str "/overlay", str "/root", [], [], [], [], [], [], 100000⟩
      (str "/0A0B0C0D") 100 0).2.1 (by decide) (by decide) (by decide) (by decide)⟩

/-- C2 counterexample: `'GGGGGGGG'` matches `[A-Z0-9]{8}` but `hex2ip`
raises `ValueError` on it, so `encode(decode(s)) == s` fails there. -/
theorem codec_round_trip_ce :
    node_re (str "GGGGGGGG") = true
  ∧ hex2ip (str "GGGGGGGG") = none
  ∧ ¬((hex2ip (str "GGGGGGGG")).bind ip2hex = some (str "GGGGGGGG")) := by decide

/-- C2 (amended): `decode(encode(a)) = a` for every canonical
dotted-quad of octets 0-255, and `encode(decode(s)) = s` for every
8-character string over `[0-9A-F]` (not all of `[A-Z0-9]`). -/
theorem codec_round_trip :
    (∀ a b c d : Nat, a ≤ 255 → b ≤ 255 → c ≤ 255 → d ≤ 255 →
      (ip2hex (quadStr a b c d)).bind hex2ip = some (quadStr a b c d))
  ∧ (∀ s : Str, s.length = 8 → (∀ c ∈ s, c ∈ upperHexChars) →
      (hex2ip s).bind ip2hex = some s) :=
  ⟨decode_encode, encode_decode⟩

/-- C2 witness: the round trips at `192.168.1.1` / `C0A80101`. -/
theorem codec_round_trip_witness :
    (ip2hex (quadStr 192 168 1 1)).bind hex2ip = some (quadStr 192 168 1 1)
  ∧ (hex2ip (str "C0A80101")).bind ip2hex = some (str "C0A80101") :=
  ⟨codec_round_trip.1 192 168 1 1 (by decide) (by decide) (by decide) (by decide),
   codec_round_trip.2 (str "C0A80101") (by decide) (by decide)⟩

/-- C3 counterexample: the template `A<NODE>B<NODE>` is accepted by
`load_template` (which stores rendered length 16), yet rendering for an
8-character identifier yields 18 bytes, since `replace` substitutes both
marker occurrences. -/
theorem render_length_ce :
    load_template (str "A<NODE>B<NODE>") = Except.ok (str "A<NODE>B<NODE>", 16)
  ∧ (get_pxe_data (str "A<NODE>B<NODE>") (str "AABBCCDD")).length = 18 :=
  ⟨rfl, by decide⟩

/-- C3 (amended): for templates containing exactly one occurrence of the
marker, the rendering for any 8-character identifier has exactly the
length `pxe_template_length` computed at load time. -/
theorem render_length (t node : Str) (L : Nat)
    (hload : load_template t = Except.ok (t, L))
    (hcount : countMarker t = 1) (hnode : node.length = 8) :
    (get_pxe_data t node).length = L := by
  have hm : hasMarker t = true := (hasMarker_iff t).mpr (by omega)
  have hL : t.length - 6 + 8 = L := by
    simp [load_template, hm] at hload
    exact hload
  have hlen := replaceMarker_length node hnode t
  have hle := countMarker_le_length t
  unfold get_pxe_data
  rw [hlen, hcount]
  omega

/-- C3 witness at a concrete single-marker template. -/
theorem render_length_witness :
    (get_pxe_data (str "default <NODE> kernel") (str "0A0B0C0D")).length = 23 :=
  render_length (str "default <NODE> kernel") (str "0A0B0C0D") 23
    (by rfl) (by decide) (by decide)

/-- C4 counterexample: a node directory holding one non-empty orphaned
directory makes `get_node_list` raise `OSError` from `os.rmdir`, so the
call neither returns the listing nor removes the entry. -/
theorem list_nodes_ce :
    get_node_list ⟨str "/nodes", str "/overlay", str "/root",
        [(str "AABBCCDD", EntryKind.plainDir false)], [], [], [], [], [], 100000⟩
      = Except.error (str "[Errno 39] Directory not empty: " ++ str "AABBCCDD") := by rfl

/-- C4 (amended): when every non-mount plain directory in the node
directory is empty, `get_node_list` returns exactly the names of the
mount-point entries and removes exactly the plain-directory entries,
leaving everything else in place. -/
theorem list_nodes (s : SysState)
    (hemp : ∀ e ∈ s.nodeEntries, e.2 ≠ EntryKind.plainDir false) :
    get_node_list s = Except.ok
      ((s.nodeEntries.filter (fun e => e.2 == EntryKind.mountPoint)).map Prod.fst,
       { s with nodeEntries := s.nodeEntries.filter (fun e => !(isPlainDir e.2)) }) :=
  get_node_list_ok s hemp

/-- C4 witness: one empty orphan and one mount point. -/
theorem list_nodes_witness :
    get_node_list ⟨str "/nodes", str "/overlay", str "/root",
        [(str "AABBCCDD", EntryKind.plainDir true), (str "C0A80101", EntryKind.mountPoint)],
        [], [], [], [], [], 100000⟩
      = Except.ok
        ((([(str "AABBCCDD", EntryKind.plainDir true),
             (str "C0A80101", EntryKind.mountPoint)].filter
            (fun e => e.2 == EntryKind.mountPoint)).map Prod.fst),
         { (⟨str "/nodes", str "/overlay", str "/root",
              [(str "AABBCCDD", EntryKind.plainDir true),
               (str "C0A80101", EntryKind.mountPoint)],
              [], [], [], [], [], 100000⟩ : SysState) with
            nodeEntries := [(str "AABBCCDD", EntryKind.plainDir true),
              (str "C0A80101", EntryKind.mountPoint)].filter
              (fun e => !(isPlainDir e.2)) }) :=
  list_nodes ⟨str "/nodes", str "/overlay", str "/root",
      [(str "AABBCCDD", EntryKind.plainDir true), (str "C0A80101", EntryKind.mountPoint)],
      [], [], [], [], [], 100000⟩ (by decide)



/-- C5: `setup_node` creates the node and overlay directories only when
absent, issues the aufs mount command only when the mount point is not
already a mount, and always issues the `exportfs` command for the
decoded client address with the freshly allocated fsid, bumping the
counter — so a call on an already-mounted node skips the mount but
re-exports under a new export identifier.  (Stated on the success path:
the identifier decodes and no `OSError` strikes directory creation.) -/
theorem provision_mount_export (s : SysState) (node ip : Str)
    (hip : hex2ip node = some ip)
    (h1 : node ∉ s.nodeMkdirFails) (h2 : node ∉ s.overlayMkdirFails) :
    ∃ s', setup_node s node = SetupResult.ok node s'
      ∧ s'.nodeEntries = (if (lookupEntry s.nodeEntries node).isSome then s.nodeEntries
            else s.nodeEntries ++ [(node, EntryKind.plainDir true)])
      ∧ s'.overlayDirs = (if node ∈ s.overlayDirs then s.overlayDirs
            else s.overlayDirs ++ [node])
      ∧ s'.log = s.log
          ++ (if lookupEntry s.nodeEntries node = some EntryKind.mountPoint then []
              else [mountCmdStr (pjoin s.overlayDir node) s.rootDir (pjoin s.nodeDir node)])
          ++ [exportCmdStr s.nextFsid ip (pjoin s.nodeDir node)]
      ∧ s'.nextFsid = s.nextFsid + 1 :=
  setup_node_ok s node ip hip h1 h2

/-- C5 witness: re-provisioning an already-mounted node. -/
theorem provision_mount_export_witness :
    ∃ s', setup_node ⟨str "/nodes", str "/overlay", str "/root",
        [(str "C0A80101", EntryKind.mountPoint)], [], [], [], [], [], 100000⟩
        (str "C0A80101")
      = SetupResult.ok (str "C0A80101") s'
      ∧ s'.nodeEntries = (if (lookupEntry [(str "C0A80101", EntryKind.mountPoint)]
            (str "C0A80101")).isSome then [(str "C0A80101", EntryKind.mountPoint)]
            else [(str "C0A80101", EntryKind.mountPoint)]
              ++ [(str "C0A80101", EntryKind.plainDir true)])
      ∧ s'.overlayDirs = (if str "C0A80101" ∈ ([] : List Str) then ([] : List Str)
            else [] ++ [str "C0A80101"])
      ∧ s'.log = []
          ++ (if lookupEntry [(str "C0A80101", EntryKind.mountPoint)] (str "C0A80101")
                = some EntryKind.mountPoint then []
              else [mountCmdStr (pjoin (str "/overlay") (str "C0A80101")) (str "/root")
                (pjoin (str "/nodes") (str "C0A80101"))])
          ++ [exportCmdStr 100000 (str "192.168.1.1") (pjoin (str "/nodes") (str "C0A80101"))]
      ∧ s'.nextFsid = 100000 + 1 :=
  provision_mount_export ⟨str "/nodes", str "/overlay", str "/root",
      [(str "C0A80101", EntryKind.mountPoint)], [], [], [], [], [], 100000⟩
    (str "C0A80101") (str "192.168.1.1") (by decide) (by decide) (by decide)

/-- C6 counterexample: an interleaving of two concurrent
`get_next_fsid` calls (each split into its read and its increment, as
in the source) in which both calls return 100000 — the same export
identifier twice. -/
theorem fsid_unique_ce :
    schedRun [true, false, true, false] ⟨100000, APc.start, APc.start⟩
      = ⟨100002, APc.done 100000, APc.done 100000⟩ := rfl

/-- C6 (amended): sequential (non-interleaved) calls to `get_next_fsid`
return the values seed, seed+1, seed+2, ..., which are strictly
increasing and pairwise distinct; uniqueness is not guaranteed under
concurrent interleavings, since the counter is read and incremented in
two unsynchronized steps. -/
theorem fsid_sequential_unique (s : SysState) (n : Nat) :
    fsidCalls s n = (List.range n).map (fun i => s.nextFsid + i)
  ∧ List.Pairwise (· < ·) (fsidCalls s n) :=
  ⟨fsidCalls_spec n s, fsidCalls_pairwise s n⟩


/-- C6 witness: three sequential calls from seed 100000. -/
theorem fsid_sequential_unique_witness :
    fsidCalls ⟨str "/nodes", str "/overlay", str "/root", [], [], [], [], [], [], 100000⟩ 3
      = (List.range 3).map (fun i => 100000 + i)
  ∧ List.Pairwise (· < ·)
      (fsidCalls ⟨str "/nodes", str "/overlay", str "/root", [], [], [], [], [], [],
        100000⟩ 3) :=
  fsid_sequential_unique
    ⟨str "/nodes", str "/overlay", str "/root", [], [], [], [], [], [], 100000⟩ 3

/-- C7 counterexample: `/a/AABBCCDD` is none of `/`, `/by-ip`,
`/by-ip/<name>`, nor a top-level identifier path, yet `getattr` reports
a regular file instead of "not found", because the source classifies by
base name anywhere in the tree. -/
theorem getattr_table_ce :
    getattr 42 (str "/a/AABBCCDD") = Attr.fileA 42 1
  ∧ getattr 42 (str "/a/AABBCCDD") ≠ Attr.enoent := by decide

/-- C7 (amended): `getattr` classifies `/` and `/by-ip` as directories,
everything under `/by-ip/` as a symlink, every other path whose base
name matches the identifier shape (top-level or not) as a regular file
of the stored template length, and signals "not found" exactly on the
remaining paths. -/
theorem getattr_classification (tl : Nat) :
    getattr tl (str "/") = Attr.dirA 4096 2
  ∧ getattr tl (str "/by-ip") = Attr.dirA 4096 2
  ∧ (∀ name : Str, getattr tl (str "/by-ip/" ++ name) = Attr.lnkA 4096 2)
  ∧ (∀ path : Str, node_re (basename path) = true →
      ¬(path = str "/" ∨ path = str "/by-ip") →
      (str "/by-ip/").isPrefixOf path = false →
      getattr tl path = Attr.fileA tl 1)
  ∧ (∀ path : Str, ¬(path = str "/" ∨ path = str "/by-ip") →
      (str "/by-ip/").isPrefixOf path = false →
      node_re (basename path) = false →
      getattr tl path = Attr.enoent) := by
  refine ⟨rfl, rfl, ?_, ?_, ?_⟩
  · intro name
    have h7 : (str "/by-ip/").length = 7 := rfl
    have hlen : (str "/by-ip/" ++ name).length = 7 + name.length := by
      rw [List.length_append, h7]
    have hno : ¬(str "/by-ip/" ++ name = str "/" ∨ str "/by-ip/" ++ name = str "/by-ip") := by
      rintro (h | h)
      · have hl := congrArg List.length h
        rw [hlen] at hl
        have h1 : (str "/").length = 1 := rfl
        rw [h1] at hl
        omega
      · have hl := congrArg List.length h
        rw [hlen] at hl
        have h6 : (str "/by-ip").length = 6 := rfl
        rw [h6] at hl
        omega
    have hpre : (str "/by-ip/").isPrefixOf (str "/by-ip/" ++ name) = true := by
      rw [ List.isPrefixOf_iff_prefix]
      exact List.prefix_append _ _
    simp [getattr, hno, hpre]
    intro hle
    rw [h7] at hle
    exact absurd hle (by omega)
  · intro path hnr hno hpre
    simp [getattr, hno, hpre, hnr]
  · intro path hno hpre hnr
    simp [getattr, hno, hpre, hnr]

/-- C7 witness at the table's sample paths. -/
theorem getattr_classification_witness :
    getattr 42 (str "/by-ip/192.168.1.1") = Attr.lnkA 4096 2
  ∧ getattr 42 (str "/0A0B0C0D") = Attr.fileA 42 1
  ∧ getattr 42 (str "/nope") = Attr.enoent :=
  ⟨by
      have h := (getattr_classification 42).2.2.1 (str "192.168.1.1")
      exact h,
   (getattr_classification 42).2.2.2.1 (str "/0A0B0C0D") (by decide) (by decide) (by decide),
   (getattr_classification 42).2.2.2.2 (str "/nope") (by decide) (by decide) (by decide)⟩

/-- C8 counterexample: a template with two marker occurrences is
accepted by `load_template`, although the claim requires exactly one
occurrence to be accepted. -/
theorem template_marker_ce :
    (∃ r, load_template (str "<NODE><NODE>") = Except.ok r)
  ∧ countMarker (str "<NODE><NODE>") = 2 :=
  ⟨⟨(str "<NODE><NODE>", 14), rfl⟩, by decide⟩

/-- C8 (amended): `load_template` succeeds exactly when the template
contains at least one occurrence of `<NODE>`; only the zero-occurrence
case is a fatal configuration error. -/
theorem template_marker_load (t : Str) :
    (∃ r, load_template t = Except.ok r) ↔ 1 ≤ countMarker t := by
  constructor
  · rintro ⟨r, hr⟩
    by_cases hm : hasMarker t
    · have := (hasMarker_iff t).mp hm
      omega
    · simp [load_template, hm] at hr
  · intro h
    have hm : hasMarker t = true := (hasMarker_iff t).mpr (by omega)
    exact ⟨(t, t.length - 6 + 8), by simp [load_template, hm]⟩




/-- C8 witness: a single-marker template is accepted. -/
theorem template_marker_load_witness :
    (∃ r, load_template (str "x <NODE> y") = Except.ok r)
      ↔ 1 ≤ countMarker (str "x <NODE> y") :=
  template_marker_load (str "x <NODE> y")

/-- C9 counterexample: in a state where the shell reports failure (exit
status 1) for both the mount and the export command, `read` still
returns the ordinary rendered template window — not diagnostic text
describing the failure — and its content is identical to the content of
the same read in a state where both commands succeed.  The source
discards the exit status of `os.system`. -/
theorem provision_failure_ce :
    rdata (read (str "default <NODE> kernel")
        ⟨str "/nodes", str "/overlay", str "/root", [], [], [], [], [1, 1], [], 100000⟩
        (str "/0A0B0C0D") 100 0)
      = some (str "default 0A0B0C0D kernel")
  ∧ rdata (read (str "default <NODE> kernel")
        ⟨str "/nodes", str "/overlay", str "/root", [], [], [], [], [0, 0], [], 100000⟩
        (str "/0A0B0C0D") 100 0)
      = some (str "default 0A0B0C0D kernel") := by decide

/-- C9 (amended): a failing `os.mkdir` during provisioning makes `read`
return `str(err)` as if it were file content rather than signal a read
error; failures of the mount/export commands themselves (nonzero exit
statuses) are ignored outright — the content of `read` does not depend
on the exit statuses at all. -/
theorem provision_failure_diag (tmpl : Str) (s : SysState) (path : Str) (len off : Nat) :
    (node_re (basename path) = true →
     lookupEntry s.nodeEntries (basename path) = none →
     basename path ∈ s.nodeMkdirFails →
     read tmpl s path len off
       = ReadResult.content (osMsg (pjoin s.nodeDir (basename path))) s)
  ∧ (∀ e : List Nat,
      rdata (read tmpl { s with cmdExits := e } path len off)
        = rdata (read tmpl s path len off)) :=
  ⟨fun hs ha hf => read_mkdirFail tmpl s path len off hs ha hf,
   fun e => read_ignores_cmdExits tmpl s path len off e⟩

/-- C9 witness: a concrete state where `os.mkdir` fails for the node
directory of `0A0B0C0D`. -/
theorem provision_failure_diag_witness :
    read (str "default <NODE> kernel")
        ⟨str "/nodes", str "/overlay", str "/root", [], [], [str "0A0B0C0D"], [], [], [],
          100000⟩
        (str "/0A0B0C0D") 100 0
      = ReadResult.content (osMsg (pjoin (str "/nodes") (basename (str "/0A0B0C0D"))))
        ⟨str "/nodes", str "/overlay", str "/root", [], [], [str "0A0B0C0D"], [], [], [],
          100000⟩ :=
  (provision_failure_diag (str "default <NODE> kernel")
      ⟨str "/nodes", str "/overlay", str "/root", [], [], [str "0A0B0C0D"], [], [], [],
        100000⟩
      (str "/0A0B0C0D") 100 0).1 (by decide) (by decide) (by decide)

/-- C10: reading `/GGGGGGGG` — whose base name matches `[A-Z0-9]{8}`
but is not hexadecimal — raises an uncaught `ValueError` from `hex2ip`
inside `setup_node` (only `OSError` is caught), returning neither bytes
nor a defined error value; on base names made of hexadecimal digits
`read` never raises. -/
theorem read_nonhex_valueError (tmpl : Str) (s : SysState) (len off : Nat)
    (h1 : str "GGGGGGGG" ∉ s.nodeMkdirFails) (h2 : str "GGGGGGGG" ∉ s.overlayMkdirFails) :
    (∃ s', read tmpl s (str "/GGGGGGGG") len off = ReadResult.exn valueErrMsg s')
  ∧ (∀ path : Str, (basename path).all isHexDigitCh = true →
      ∀ m s', read tmpl s path len off ≠ ReadResult.exn m s') :=
  ⟨read_GGGG tmpl s len off h1 h2,
   fun path hhex => read_no_exn tmpl s path len off hhex⟩

/-- C10 witness at a concrete state. -/
theorem read_nonhex_valueError_witness :
    ∃ s', read (str "default <NODE> kernel")
        ⟨str "/nodes", str "/overlay", str "/root", [], [], [], [], [], [], 100000⟩
        (str "/GGGGGGGG") 100 0
      = ReadResult.exn valueErrMsg s' :=
  (read_nonhex_valueError (str "default <NODE> kernel")
      ⟨str "/nodes", str "/overlay", str "/root", [], [], [], [], [], [], 100000⟩
      100 0 (by decide) (by decide)).1

end PXEBootFS
